import Mathlib

/-!
Shallow embedding of the crash-game server in `src/script.js`.

Money amounts and multipliers are modelled as exact rationals (the JS code
uses IEEE doubles); `Date.now()` timestamps are naturals in milliseconds.
Each definition mirrors one function or request handler of the source:

* `generateCrashPoint`  — `generateCrashPoint()` (lines 42-48)
* `startNewGame`        — `startNewGame()` up to the `game_start` emit (51-77)
* `tick`                — the body of the `setInterval` callback (80-102)
* `endGame`/`settlePlayer`/`pushHistory` — `endGame()` (113-151)
* `placeBet`            — the `/api/place-bet` handler (214-269)
* `cashOutH`/`settleFirstOpen` — the `/api/cash-out` handler (271-319)
* `getUserView`/`getAccountH`  — the `/api/user/:username` handler (321-332)
* `userJoinEvents`      — the `user_join` socket handler's snapshot (353-364)
-/

namespace CrashServer

/-- A player entry of `game.players`, as built by `/api/place-bet`
(lines 241-250 of the source).  `cashOutMultiplier` starts as the optional
auto-cash-out value and is overwritten with the actual multiplier on
cash-out; in JS it is `null` or a number, hence `Option ℚ`. -/
structure Player where
  id : String
  username : String
  bet : ℚ
  cashOutMultiplier : Option ℚ
  cashedOut : Bool
  won : Bool
  profit : ℚ
  joinedAt : ℕ
  deriving Repr, DecidableEq

/-- A registered user record (`users[username]`, lines 172-181). -/
structure User where
  id : String
  username : String
  password : String
  balance : ℚ
  gamesPlayed : ℕ
  gamesWon : ℕ
  totalProfit : ℚ
  createdAt : ℕ
  deriving Repr, DecidableEq

/-- The game object (`gameState` / `activeGames[gameId]`, lines 57-66).
The `winner` field of the source is `null` and never read, so it is
dropped; `endTime` is only set by `endGame`. -/
structure Game where
  id : String
  isRunning : Bool
  multiplier : ℚ
  crashPoint : ℚ
  startTime : ℕ
  players : List Player
  endTime : Option ℕ
  deriving Repr, DecidableEq

/-- An entry of `gameHistory`: the spread `{...game, players: game.players.length}`
pushed at lines 132-135. -/
structure HistEntry where
  id : String
  isRunning : Bool
  multiplier : ℚ
  crashPoint : ℚ
  startTime : ℕ
  endTime : Option ℕ
  players : ℕ
  deriving Repr, DecidableEq

/-- `x.toFixed(2)` on a non-negative number, read back as a rational:
round to two decimal places, half away from zero. -/
def toFixed2 (q : ℚ) : ℚ := (⌊q * 100 + 1 / 2⌋ : ℤ) / 100

/-- `x.toFixed(1)` on a non-negative number, read back as a rational. -/
def toFixed1 (q : ℚ) : ℚ := (⌊q * 10 + 1 / 2⌋ : ℤ) / 10

/-- The `io.emit` / `socket.emit` payloads of the source, one constructor
per event name. -/
inductive Event where
  | gameStart (gameId : String) (crashPoint : ℚ) (startTime : ℕ)
  | gameUpdate (gameId : String) (multiplier : ℚ) (timeElapsed : ℚ)
  | gameEnd (gameId : String) (finalMultiplier : ℚ) (crashPoint : ℚ)
      (players : List Player) (winners : ℕ)
  | newBet (gameId : String) (username : String) (amount : ℚ) (autoCashout : Option ℚ)
  | cashOutEv (gameId : String) (username : String) (multiplier : ℚ) (amount : ℚ)
  | gameStateSnapshot (game : Game)
  deriving Repr, DecidableEq

/-- `generateCrashPoint()` (lines 42-48): with `e = 2^32` and a 32-bit draw
`h`, compute `Math.floor((100*e - h)/(e - h)) / 100` and clamp it with
`Math.max(1.01, Math.min(_, 100))`.  Natural-number division is the floor
of the exact quotient since `e - h > 0` for `h < 2^32`. -/
def generateCrashPoint (h : ℕ) : ℚ :=
  max (101 / 100) (min ((((100 * 2 ^ 32 - h) / (2 ^ 32 - h) : ℕ) : ℚ) / 100) 100)

/-- `startNewGame()` (lines 51-77): no-op when a game is already running,
otherwise build the fresh game state and emit `game_start` with
`{gameId, crashPoint, startTime}`. -/
def startNewGame (prevRunning : Bool) (gameId : String) (h : ℕ) (now : ℕ) :
    Option (Game × List Event) :=
  if prevRunning then none
  else
    some ({ id := gameId, isRunning := true, multiplier := 1,
            crashPoint := generateCrashPoint h, startTime := now,
            players := [], endTime := none },
          [Event.gameStart gameId (generateCrashPoint h) now])

/-- The per-player settlement of `endGame` (lines 121-129).  JS compares
`player.cashOutMultiplier < game.multiplier` where a `null` threshold
coerces to `0`, hence `getD 0`. -/
def settlePlayer (m : ℚ) (p : Player) : Player :=
  if p.cashedOut = true ∧ p.cashOutMultiplier.getD 0 < m then
    { p with won := true, profit := p.bet * p.cashOutMultiplier.getD 0 }
  else if p.cashedOut = false then
    { p with won := false, profit := -p.bet }
  else p

/-- The history bound of `endGame` (lines 132-140): push, then keep the
last 100 entries (`gameHistory.slice(-100)`) when the length exceeds 100. -/
def pushHistory (hist : List HistEntry) (entry : HistEntry) : List HistEntry :=
  let h' := hist ++ [entry]
  if 100 < h'.length then h'.drop (h'.length - 100) else h'

/-- The record `{...game, players: game.players.length}` pushed to history. -/
def summarize (g : Game) : HistEntry :=
  { id := g.id, isRunning := g.isRunning, multiplier := g.multiplier,
    crashPoint := g.crashPoint, startTime := g.startTime,
    endTime := g.endTime, players := g.players.length }

/-- `endGame(gameId)` (lines 113-151): guard on `isRunning`, settle every
player, push the summary to the bounded history and emit `game_end` with
`{gameId, finalMultiplier: multiplier.toFixed(2), crashPoint, players,
winners}`.  The multiplier field of the game is left untouched. -/
def endGame (g : Game) (hist : List HistEntry) (now : ℕ) :
    Game × List HistEntry × List Event :=
  if g.isRunning = false then (g, hist, [])
  else
    let settled := g.players.map (settlePlayer g.multiplier)
    let g' := { g with isRunning := false, endTime := some now, players := settled }
    (g', pushHistory hist (summarize g'),
     [Event.gameEnd g.id (toFixed2 g.multiplier) g.crashPoint settled
        ((settled.filter (fun p => p.won)).length)])

/-- One firing of the `setInterval` callback (lines 80-102): recompute the
multiplier from elapsed wall-clock time as `1.0 + elapsed * 0.05`, end the
game when it reaches the crash point, otherwise emit `game_update` with
`{gameId, multiplier: toFixed(2), timeElapsed: toFixed(1)}`. -/
def tick (g : Game) (hist : List HistEntry) (now : ℕ) :
    Game × List HistEntry × List Event :=
  if g.isRunning = false then (g, hist, [])
  else
    let timeElapsed : ℚ := ((now - g.startTime : ℕ) : ℚ) / 1000
    let m := 1 + timeElapsed * (5 / 100)
    let g' := { g with multiplier := m }
    if g'.crashPoint ≤ m then endGame g' hist now
    else (g', hist, [Event.gameUpdate g.id (toFixed2 m) (toFixed1 timeElapsed)])

/-- Reply of `/api/place-bet`. -/
inductive PlaceBetRes where
  | userNotFound
  | gameNotActive
  | insufficientFunds
  | belowMinimum
  | ok (balance : ℚ)
  deriving Repr, DecidableEq

/-- A request handler's outcome: the HTTP reply plus the user record, the
game record and the broadcast events after the handler ran. -/
structure BetReply where
  res : PlaceBetRes
  user : Option User
  game : Option Game
  events : List Event
  deriving Repr, DecidableEq

/-- The player object appended by `/api/place-bet` (lines 241-250);
`cashOutMultiplier: autoCashout || null` maps a missing or zero threshold
to `null`. -/
def newPlayer (u : User) (amount : ℚ) (auto : Option ℚ) (now : ℕ) : Player :=
  { id := u.id, username := u.username, bet := amount,
    cashOutMultiplier :=
      match auto with
      | some a => if a = 0 then none else some a
      | none => none,
    cashedOut := false, won := false, profit := 0, joinedAt := now }

/-- The `/api/place-bet` handler (lines 214-269), acting on the looked-up
user and game.  Checks, in source order: user exists; game exists and is
running; `balance < amount`; `amount < 10`.  On success: debit the stake,
bump `gamesPlayed`, append the player and emit `new_bet`. -/
def placeBet (user? : Option User) (game? : Option Game) (amount : ℚ)
    (auto : Option ℚ) (now : ℕ) : BetReply :=
  match user?, game? with
  | none, g? => { res := .userNotFound, user := none, game := g?, events := [] }
  | some u, none => { res := .gameNotActive, user := some u, game := none, events := [] }
  | some u, some g =>
    if g.isRunning = false then
      { res := .gameNotActive, user := some u, game := some g, events := [] }
    else if u.balance < amount then
      { res := .insufficientFunds, user := some u, game := some g, events := [] }
    else if amount < 10 then
      { res := .belowMinimum, user := some u, game := some g, events := [] }
    else
      { res := .ok (u.balance - amount),
        user := some { u with balance := u.balance - amount,
                              gamesPlayed := u.gamesPlayed + 1 },
        game := some { g with players := g.players ++ [newPlayer u amount auto now] },
        events := [Event.newBet g.id u.username amount auto] }

/-- Reply of `/api/cash-out`. -/
inductive CashOutRes where
  | cannotProcess
  | noOpenBet
  | ok (multiplier : ℚ) (amount : ℚ) (balance : ℚ)
  deriving Repr, DecidableEq

/-- Outcome of the cash-out handler, see `BetReply`. -/
structure CashReply where
  res : CashOutRes
  user : Option User
  game : Option Game
  events : List Event
  deriving Repr, DecidableEq

/-- The lookup predicate of `/api/cash-out` (line 282):
`p.username === username && !p.cashedOut`. -/
def isOpenBetOf (name : String) (q : Player) : Bool :=
  q.username == name && !q.cashedOut

/-- The in-place mutation of the player found by `game.players.find(...)`
(lines 297-301): the first open bet of the account gets
`cashedOut = true`, `cashOutMultiplier = multiplier`, `won = true`,
`profit = winAmount - bet`; later entries are untouched. -/
def settleFirstOpen (name : String) (m : ℚ) : List Player → List Player
  | [] => []
  | q :: qs =>
    if isOpenBetOf name q then
      { q with cashedOut := true, cashOutMultiplier := some m, won := true,
               profit := q.bet * m - q.bet } :: qs
    else q :: settleFirstOpen name m qs

/-- The `/api/cash-out` handler (lines 271-319): reject unless the user and
a running game exist; find the first open bet of the account; credit
`winAmount = bet * multiplier`, update `totalProfit` and (when
`winAmount > bet`) `gamesWon`; close the bet; emit `cash_out`; reply with
`{multiplier: toFixed(2), amount, balance}`. -/
def cashOutH (user? : Option User) (game? : Option Game) : CashReply :=
  match user?, game? with
  | some u, some g =>
    if g.isRunning = false then
      { res := .cannotProcess, user := some u, game := some g, events := [] }
    else
      match g.players.find? (isOpenBetOf u.username) with
      | none => { res := .noOpenBet, user := some u, game := some g, events := [] }
      | some p =>
        { res := .ok (toFixed2 g.multiplier) (p.bet * g.multiplier)
            (u.balance + p.bet * g.multiplier),
          user := some { u with
            balance := u.balance + p.bet * g.multiplier,
            totalProfit := u.totalProfit + (p.bet * g.multiplier - p.bet),
            gamesWon := if p.bet < p.bet * g.multiplier then u.gamesWon + 1
                        else u.gamesWon },
          game := some { g with
            players := settleFirstOpen u.username g.multiplier g.players },
          events := [Event.cashOutEv g.id u.username (toFixed2 g.multiplier)
            (p.bet * g.multiplier)] }
  | u?, g? => { res := .cannotProcess, user := u?, game := g?, events := [] }

/-- The account view returned by `/api/user/:username` (lines 329-331):
`const { password, ...userData } = user` — every stored field except the
password. -/
structure UserView where
  id : String
  username : String
  balance : ℚ
  gamesPlayed : ℕ
  gamesWon : ℕ
  totalProfit : ℚ
  createdAt : ℕ
  deriving Repr, DecidableEq

/-- Projection of a user record to the password-free view. -/
def getUserView (u : User) : UserView :=
  { id := u.id, username := u.username, balance := u.balance,
    gamesPlayed := u.gamesPlayed, gamesWon := u.gamesWon,
    totalProfit := u.totalProfit, createdAt := u.createdAt }

/-- The `/api/user/:username` handler (lines 321-332): look the user up and
return the view, or a 404. -/
def getAccountH (users : List User) (name : String) : Option UserView :=
  (users.find? (fun u => u.username == name)).map getUserView

/-- The `user_join` socket handler's snapshot (lines 360-364): if a running
game exists, send the whole game object as `game_state`. -/
def userJoinEvents (current : Option Game) : List Event :=
  match current with
  | some g => if g.isRunning then [Event.gameStateSnapshot g] else []
  | none => []

/-- Open bets a given account holds in a player list. -/
def openCount (name : String) (ps : List Player) : ℕ :=
  (ps.filter (isOpenBetOf name)).length

/-! Concrete states used to evaluate the handlers on the scenarios the
specification singles out. -/

/-- An open 100-unit bet of `alice` with no auto-cash-out threshold. -/
def pAlice : Player :=
  { id := "u1", username := "alice", bet := 100, cashOutMultiplier := none,
    cashedOut := false, won := false, profit := 0, joinedAt := 0 }

/-- A 100-unit bet of `alice` already cashed out at multiplier 2, exactly as
the cash-out handler leaves it (profit `= stake * x - stake = 100`). -/
def pCashed : Player :=
  { id := "u1", username := "alice", bet := 100, cashOutMultiplier := some 2,
    cashedOut := true, won := true, profit := 100, joinedAt := 0 }

/-- A running round at final multiplier 2.5 holding one still-open bet and
one bet cashed out at 2, about to be settled. -/
def gC1 : Game :=
  { id := "g6", isRunning := true, multiplier := 5 / 2, crashPoint := 5 / 2,
    startTime := 0, players := [pAlice, pCashed], endTime := none }

/-- An open 100-unit bet carrying an auto-cash-out threshold of 1.80. -/
def pAuto : Player :=
  { id := "u1", username := "alice", bet := 100, cashOutMultiplier := some (9 / 5),
    cashedOut := false, won := false, profit := 0, joinedAt := 0 }

/-- A running round with crash point 2.00 holding the threshold-1.80 bet. -/
def gAuto : Game :=
  { id := "g2", isRunning := true, multiplier := 1, crashPoint := 2,
    startTime := 0, players := [pAuto], endTime := none }

/-- A running round with crash point 1.50, started at time 0. -/
def gC5 : Game :=
  { id := "g5", isRunning := true, multiplier := 1, crashPoint := 3 / 2,
    startTime := 0, players := [], endTime := none }

/-- The game object `startNewGame` builds from draw `h = 0` at time 17. -/
def gFresh : Game :=
  { id := "g1", isRunning := true, multiplier := 1, crashPoint := 101 / 100,
    startTime := 17, players := [], endTime := none }

/-- A registered user with the initial balance of 1000. -/
def alice : User :=
  { id := "u1", username := "alice", password := "pw", balance := 1000,
    gamesPlayed := 0, gamesWon := 0, totalProfit := 0, createdAt := 0 }

/-- A running round in which `alice` already holds the open bet `pAlice`. -/
def gOne : Game :=
  { id := "g1", isRunning := true, multiplier := 1, crashPoint := 2,
    startTime := 0, players := [pAlice], endTime := none }

/-- A user whose stakes are already debited (balance 0, two games played). -/
def bob : User :=
  { id := "u2", username := "bob", password := "pw", balance := 0,
    gamesPlayed := 2, gamesWon := 0, totalProfit := 0, createdAt := 0 }

/-- First open bet of `bob` (stake 100). -/
def bobBet1 : Player :=
  { id := "u2", username := "bob", bet := 100, cashOutMultiplier := none,
    cashedOut := false, won := false, profit := 0, joinedAt := 0 }

/-- Second open bet of `bob` (stake 50). -/
def bobBet2 : Player :=
  { id := "u2", username := "bob", bet := 50, cashOutMultiplier := none,
    cashedOut := false, won := false, profit := 0, joinedAt := 0 }

/-- A running round at multiplier 2 in which `bob` holds two open bets. -/
def gBob : Game :=
  { id := "g3", isRunning := true, multiplier := 2, crashPoint := 3,
    startTime := 0, players := [bobBet1, bobBet2], endTime := none }

/-- A running round at multiplier 2 in which `bob` holds exactly one open bet. -/
def gBob1 : Game :=
  { id := "g4", isRunning := true, multiplier := 2, crashPoint := 3,
    startTime := 0, players := [bobBet1], endTime := none }

end CrashServer

namespace CrashServer

/-! Theorems.  Each claim theorem is stated against the definitions above.
Batteries marks the `Rat` field operations irreducible, which blocks
`decide` on closed rational computations; restoring the default
transparency locally lets the evaluations below reduce. -/

section ConcreteEvaluations

attribute [local semireducible] Rat.add Rat.sub Rat.mul Rat.inv

/-- Settling a player marks a previously settled bet as not open. -/
theorem settled_head_not_open (name : String) (m : ℚ) (q : Player) :
    isOpenBetOf name
      { q with cashedOut := true, cashOutMultiplier := some m, won := true,
               profit := q.bet * m - q.bet } = false := by
  simp [isOpenBetOf]

/-- After the cash-out handler settles the only open bet of an account, the
account has no open bet left to find. -/
theorem find_settleFirstOpen_none (name : String) (m : ℚ) :
    ∀ ps : List Player, openCount name ps ≤ 1 →
      (settleFirstOpen name m ps).find? (isOpenBetOf name) = none := by
  intro ps
  induction ps with
  | nil => intro _; rfl
  | cons q qs ih =>
    intro honce
    simp only [settleFirstOpen]
    by_cases hq : isOpenBetOf name q = true
    · rw [if_pos hq]
      have honce' : (qs.filter (isOpenBetOf name)).length = 0 := by
        simp only [openCount, List.filter_cons_of_pos hq, List.length_cons] at honce
        omega
      have h2 : qs.find? (isOpenBetOf name) = none := by
        rw [List.find?_eq_none]
        intro x hx hpx
        have hnil : qs.filter (isOpenBetOf name) = [] := List.length_eq_zero.mp honce'
        exact (List.filter_eq_nil_iff.mp hnil x hx) hpx
      simp [List.find?, settled_head_not_open, h2]
    · rw [if_neg hq]
      have hq' : isOpenBetOf name q = false := by simpa using hq
      have honce' : openCount name qs ≤ 1 := by
        simpa only [openCount, List.filter_cons_of_neg hq] using honce
      simp [List.find?, hq', ih honce']

/-- One `pushHistory` step, written as a drop of the extended list. -/
theorem pushHistory_eq_drop (acc : List HistEntry) (e : HistEntry) :
    pushHistory acc e = (acc ++ [e]).drop ((acc ++ [e]).length - 100) := by
  simp only [pushHistory]
  split_ifs with h1
  · rfl
  · have h0 : (acc ++ [e]).length - 100 = 0 := by omega
    rw [h0, List.drop_zero]

/-- Folding `pushHistory` over a run of completed rounds keeps exactly the
last 100 entries of the chronological list. -/
theorem foldl_pushHistory_eq (es : List HistEntry) : ∀ acc : List HistEntry,
    acc.length ≤ 100 →
    es.foldl pushHistory acc = (acc ++ es).drop ((acc ++ es).length - 100) := by
  induction es with
  | nil =>
    intro acc hacc
    simp [Nat.sub_eq_zero_of_le hacc]
  | cons e es ih =>
    intro acc hacc
    have hB := pushHistory_eq_drop acc e
    have hBlen : (pushHistory acc e).length ≤ 100 := by
      rw [hB, List.length_drop]
      omega
    rw [List.foldl_cons, ih _ hBlen, hB]
    have hassoc : acc ++ e :: es = (acc ++ [e]) ++ es := by simp
    rw [hassoc]
    obtain ⟨A, hA⟩ : ∃ A : List HistEntry, acc ++ [e] = A := ⟨_, rfl⟩
    rw [hA]
    rw [List.drop_append_eq_append_drop, List.drop_append_eq_append_drop,
      List.drop_drop]
    simp only [List.length_append, List.length_drop]
    congr 1
    · congr 1
      omega
    · congr 1
      omega

/-- C1: the claim says that at settlement every still-open bet is marked
lost with profit `-stake` and no ledger change, and that every bet cashed
out at multiplier `x` has profit `stake * x - stake`.  The open-bet half
holds, but `endGame` overwrites a cashed-out bet's profit with
`stake * x` (`player.bet * player.cashOutMultiplier`), contradicting both
the claim and the profit the cash-out handler itself had recorded:
settling `gC1` (final multiplier 2.5) gives the bet cashed out at 2 a
profit of 200, not `100 * 2 - 100 = 100`. -/
theorem C1_settlement_profit_bug :
    (endGame gC1 [] 30).1.players.map Player.profit = [-100, 200] ∧
    (endGame gC1 [] 30).1.players.map Player.won = [false, true] ∧
    (endGame gC1 [] 30).1.players.map Player.cashedOut = [false, true] ∧
    pAlice.bet = 100 ∧ pCashed.bet * 2 - pCashed.bet = 100 ∧
    (200 : ℚ) ≠ 100 := by decide

/-- C2: the claim says the tick handler cashes out any open bet whose
auto-cash-out threshold is at most the just-computed multiplier, before
the crash check; in particular a threshold-1.80 bet in a crash-point-2.00
round is cashed out before the round crashes.  The code has no
auto-cash-out logic at all: ticking `gAuto` to multiplier 1.80 leaves the
bet open and only emits `game_update`, and the crash tick at multiplier
2.00 settles the bet as lost with profit `-100`. -/
theorem C2_no_auto_cashout :
    (tick gAuto [] 16000).1.multiplier = 9 / 5 ∧
    (tick gAuto [] 16000).1.isRunning = true ∧
    (tick gAuto [] 16000).1.players = [pAuto] ∧
    pAuto.cashOutMultiplier = some (9 / 5) ∧ pAuto.cashedOut = false ∧
    (tick gAuto [] 16000).2.2 = [Event.gameUpdate "g2" (9 / 5) 16] ∧
    (tick (tick gAuto [] 16000).1 (tick gAuto [] 16000).2.1 20000).1.isRunning = false ∧
    (tick (tick gAuto [] 16000).1 (tick gAuto [] 16000).2.1 20000).1.players =
      [{ pAuto with won := false, profit := -100 }] := by decide

/-- C3: the claim says `round_start` carries only the round identifier and
start timestamp with the crash point withheld, and that the snapshot sent
to a late joiner omits the crash point.  The code leaks it in both places:
`startNewGame` emits `game_start` with the `crashPoint` field (here the
freshly drawn 1.01), and the `user_join` snapshot is the entire game
object, crash point included, while the round is still running. -/
theorem C3_crash_point_leaked :
    startNewGame false "g1" 0 17 =
      some (gFresh, [Event.gameStart "g1" gFresh.crashPoint 17]) ∧
    gFresh.crashPoint = generateCrashPoint 0 ∧
    gFresh.crashPoint = 101 / 100 ∧
    gFresh.isRunning = true ∧
    userJoinEvents (some gFresh) = [Event.gameStateSnapshot gFresh] := by decide

/-- C4 counterexample: `alice` already holds the open bet `pAlice` in the
running round `gOne`, yet a second place-bet request is accepted (reply
`ok` with the debited balance 900) and afterwards she holds two open bets
in the round — the claim's `DuplicateBet` rejection does not exist. -/
theorem C4_counterexample :
    openCount "alice" gOne.players = 1 ∧
    pAlice.username = "alice" ∧
    (placeBet (some alice) (some gOne) 100 none 0).res = PlaceBetRes.ok 900 ∧
    ((placeBet (some alice) (some gOne) 100 none 0).game.map
      (fun g => openCount "alice" g.players)) = some 2 := by decide

/-- C4 amended: `placeBet` performs no duplicate-bet check — a request
from an account that already holds an open bet in the running round is
accepted whenever it passes the user, game-running, balance and
minimum-stake checks, debiting the stake and appending a second open
bet. -/
theorem C4_amended_no_duplicate_check (u : User) (g : Game) (amount : ℚ)
    (auto : Option ℚ) (now : ℕ)
    (hrun : g.isRunning = true) (hbal : ¬u.balance < amount) (hmin : ¬amount < 10)
    (hdup : ∃ p ∈ g.players, isOpenBetOf u.username p = true) :
    placeBet (some u) (some g) amount auto now =
      { res := PlaceBetRes.ok (u.balance - amount),
        user := some { u with balance := u.balance - amount,
                              gamesPlayed := u.gamesPlayed + 1 },
        game := some { g with players := g.players ++ [newPlayer u amount auto now] },
        events := [Event.newBet g.id u.username amount auto] } := by
  simp [placeBet, hrun, hbal, hmin]

/-- C4 amended, witness: the duplicate place-bet of `alice` in `gOne`. -/
theorem C4_amended_no_duplicate_check_witness :
    gOne.isRunning = true ∧ ¬alice.balance < 100 ∧ ¬(100 : ℚ) < 10 ∧
    (∃ p ∈ gOne.players, isOpenBetOf alice.username p = true) ∧
    placeBet (some alice) (some gOne) 100 none 0 =
      { res := PlaceBetRes.ok (alice.balance - 100),
        user := some { alice with balance := alice.balance - 100,
                                  gamesPlayed := alice.gamesPlayed + 1 },
        game := some { gOne with players := gOne.players ++ [newPlayer alice 100 none 0] },
        events := [Event.newBet gOne.id alice.username 100 none] } :=
  ⟨rfl, by decide, by decide, ⟨pAlice, by decide, by decide⟩,
   C4_amended_no_duplicate_check alice gOne 100 none 0 rfl (by decide) (by decide)
     ⟨pAlice, by decide, by decide⟩⟩

/-- C5 counterexample: round `gC5` has crash point 1.50; the tick at
elapsed 10.2 s computes multiplier 1.51, which triggers the crash, and the
round ends with its multiplier still 1.51 — not frozen at the crash
point — and `game_end` reports 1.51 as the final multiplier. -/
theorem C5_counterexample :
    (tick gC5 [] 10200).1.isRunning = false ∧
    (tick gC5 [] 10200).1.multiplier = 151 / 100 ∧
    (tick gC5 [] 10200).2.2 = [Event.gameEnd "g5" (151 / 100) (3 / 2) [] 0] ∧
    gC5.crashPoint = 3 / 2 ∧
    (151 / 100 : ℚ) ≠ 3 / 2 := by decide

/-- C5 amended: on the tick whose computed multiplier
`1 + elapsed * 0.05` reaches the crash point, the round transitions to
not-running but keeps that computed (possibly overshot) multiplier, and
`game_end` reports it (rounded by `toFixed(2)`) as the final multiplier,
with the crash point sent as a separate field. -/
theorem C5_amended_overshoot (g : Game) (hist : List HistEntry) (now : ℕ)
    (hrun : g.isRunning = true)
    (hcrash : g.crashPoint ≤ 1 + (((now - g.startTime : ℕ) : ℚ) / 1000) * (5 / 100)) :
    (tick g hist now).1.multiplier =
      1 + (((now - g.startTime : ℕ) : ℚ) / 1000) * (5 / 100) ∧
    (tick g hist now).1.isRunning = false ∧
    (tick g hist now).2.2 =
      [Event.gameEnd g.id
        (toFixed2 (1 + (((now - g.startTime : ℕ) : ℚ) / 1000) * (5 / 100)))
        g.crashPoint ((tick g hist now).1.players)
        (((tick g hist now).1.players.filter (fun p => p.won)).length)] := by
  simp [tick, endGame, hrun, hcrash]

/-- C5 amended, witness: the overshooting crash tick of `gC5`. -/
theorem C5_amended_overshoot_witness :
    gC5.isRunning = true ∧
    gC5.crashPoint ≤ 1 + (((10200 - gC5.startTime : ℕ) : ℚ) / 1000) * (5 / 100) ∧
    ((tick gC5 [] 10200).1.multiplier =
        1 + (((10200 - gC5.startTime : ℕ) : ℚ) / 1000) * (5 / 100) ∧
      (tick gC5 [] 10200).1.isRunning = false ∧
      (tick gC5 [] 10200).2.2 =
        [Event.gameEnd gC5.id
          (toFixed2 (1 + (((10200 - gC5.startTime : ℕ) : ℚ) / 1000) * (5 / 100)))
          gC5.crashPoint ((tick gC5 [] 10200).1.players)
          (((tick gC5 [] 10200).1.players.filter (fun p => p.won)).length)]) :=
  ⟨rfl, by decide, C5_amended_overshoot gC5 [] 10200 rfl (by decide)⟩

/-- C6 counterexample: because duplicate bets are allowed, `bob` holds two
open bets in `gBob`; his first cash-out succeeds (payout 200) and a second
cash-out for the same account and round also succeeds (payout 100,
balance 300) instead of failing with `NoOpenBet` and leaving the balance
unchanged. -/
theorem C6_counterexample :
    (cashOutH (some bob) (some gBob)).res = CashOutRes.ok 2 200 200 ∧
    (cashOutH (cashOutH (some bob) (some gBob)).user
      (cashOutH (some bob) (some gBob)).game).res = CashOutRes.ok 2 100 300 := by
  decide

/-- C6 amended: a given bet is settled at most once — `cashOutH` only finds
bets with `cashedOut = false` — so when the account holds at most one open
bet in the round, the first cash-out succeeds and a second request for the
same account and round fails with `NoOpenBet`, changing neither the user
record (hence the balance) nor the game. -/
theorem C6_amended_single_settle (u : User) (g : Game) (p : Player)
    (hrun : g.isRunning = true)
    (hfind : g.players.find? (isOpenBetOf u.username) = some p)
    (honce : openCount u.username g.players <= 1) :
    (∃ m a b, (cashOutH (some u) (some g)).res = CashOutRes.ok m a b) ∧
    cashOutH (cashOutH (some u) (some g)).user (cashOutH (some u) (some g)).game =
      { res := CashOutRes.noOpenBet,
        user := (cashOutH (some u) (some g)).user,
        game := (cashOutH (some u) (some g)).game,
        events := [] } := by
  have hnone := find_settleFirstOpen_none u.username g.multiplier g.players honce
  constructor
  · refine ⟨toFixed2 g.multiplier, p.bet * g.multiplier,
      u.balance + p.bet * g.multiplier, ?_⟩
    simp [cashOutH, hrun, hfind]
  · simp [cashOutH, hrun, hfind, hnone]

/-- C6 amended, witness: `bob` with his single open bet in `gBob1`. -/
theorem C6_amended_single_settle_witness :
    gBob1.isRunning = true ∧
    gBob1.players.find? (isOpenBetOf bob.username) = some bobBet1 ∧
    openCount bob.username gBob1.players <= 1 ∧
    ((∃ m a b, (cashOutH (some bob) (some gBob1)).res = CashOutRes.ok m a b) ∧
      cashOutH (cashOutH (some bob) (some gBob1)).user
          (cashOutH (some bob) (some gBob1)).game =
        { res := CashOutRes.noOpenBet,
          user := (cashOutH (some bob) (some gBob1)).user,
          game := (cashOutH (some bob) (some gBob1)).game,
          events := [] }) :=
  ⟨rfl, by decide, by decide,
   C6_amended_single_settle bob gBob1 bobBet1 rfl (by decide) (by decide)⟩

/-- C7: for every 32-bit draw `h` the generated crash point lies in
[1.01, 100.00] and is an integer number of hundredths — the computation is
the floored quotient `(100 * 2^32 - h) / (2^32 - h)` scaled by 1/100 and
clamped to the interval. -/
theorem C7_crash_point_range (h : ℕ) (hh : h < 2 ^ 32) :
    101 / 100 ≤ generateCrashPoint h ∧ generateCrashPoint h ≤ 100 ∧
    ∃ k : ℕ, generateCrashPoint h = (k : ℚ) / 100 := by
  unfold generateCrashPoint
  refine ⟨le_max_left _ _, max_le (by norm_num) (min_le_right _ _), ?_⟩
  rcases le_total ((((100 * 2 ^ 32 - h) / (2 ^ 32 - h) : ℕ) : ℚ) / 100) 100 with h1 | h1
  · rw [min_eq_left h1]
    rcases le_total (101 / 100 : ℚ)
        ((((100 * 2 ^ 32 - h) / (2 ^ 32 - h) : ℕ) : ℚ) / 100) with h2 | h2
    · rw [max_eq_right h2]
      exact ⟨(100 * 2 ^ 32 - h) / (2 ^ 32 - h), rfl⟩
    · rw [max_eq_left h2]
      exact ⟨101, by norm_num⟩
  · rw [min_eq_right h1, max_eq_right (by norm_num)]
    exact ⟨10000, by norm_num⟩

/-- C7, witness: the draw `h = 0` gives the clamped minimum 1.01. -/
theorem C7_crash_point_range_witness :
    0 < 2 ^ 32 ∧
    (101 / 100 ≤ generateCrashPoint 0 ∧ generateCrashPoint 0 ≤ 100 ∧
      ∃ k : ℕ, generateCrashPoint 0 = (k : ℚ) / 100) :=
  ⟨by norm_num, C7_crash_point_range 0 (by norm_num)⟩

/-- C8: a place-bet request whose amount is below the minimum stake of 10
or exceeds the account balance is rejected (the reply is never `ok`), and
the user record — balance and games-played counter — and the game record —
the bet list — are returned unchanged. -/
theorem C8_reject_leaves_state (u : User) (g : Game) (amount : ℚ)
    (auto : Option ℚ) (now : ℕ)
    (hrej : amount < 10 ∨ u.balance < amount) :
    (∀ b, (placeBet (some u) (some g) amount auto now).res ≠ PlaceBetRes.ok b) ∧
    (placeBet (some u) (some g) amount auto now).user = some u ∧
    (placeBet (some u) (some g) amount auto now).game = some g := by
  simp only [placeBet]
  split_ifs with h1 h2 h3
  · exact ⟨(fun _ h => by cases h), rfl, rfl⟩
  · exact ⟨(fun _ h => by cases h), rfl, rfl⟩
  · exact ⟨(fun _ h => by cases h), rfl, rfl⟩
  · rcases hrej with h | h
    · exact absurd h h3
    · exact absurd h h2

/-- C8, witness: a 5-unit bet (below the 10-unit minimum) from `alice` in
the running round `gOne` is rejected with all state unchanged. -/
theorem C8_reject_leaves_state_witness :
    ((5 : ℚ) < 10 ∨ alice.balance < 5) ∧
    ((∀ b, (placeBet (some alice) (some gOne) 5 none 0).res ≠ PlaceBetRes.ok b) ∧
      (placeBet (some alice) (some gOne) 5 none 0).user = some alice ∧
      (placeBet (some alice) (some gOne) 5 none 0).game = some gOne) :=
  ⟨Or.inl (by norm_num),
   C8_reject_leaves_state alice gOne 5 none 0 (Or.inl (by norm_num))⟩

/-- C9: folding the history push of `endGame` over the chronological list
of completed rounds keeps exactly the `min n 100` most recent entries,
dropping the oldest first; in particular after 105 completed rounds 100
entries remain and the oldest 5 are gone. -/
theorem C9_history_bound (es : List HistEntry) :
    (es.foldl pushHistory []).length = min es.length 100 ∧
    es.foldl pushHistory [] = es.drop (es.length - 100) := by
  have h := foldl_pushHistory_eq es [] (by simp)
  simp only [List.nil_append] at h
  refine ⟨?_, h⟩
  rw [h, List.length_drop]
  omega

/-- C10: the `/api/user/:username` response is built from every stored
field except the password, so it is independent of the password's value:
two user records differing only in the password yield identical lookup
responses and identical views. -/
theorem C10_password_not_in_view (u : User) (p1 p2 : String) :
    getAccountH [{ u with password := p1 }] u.username =
      getAccountH [{ u with password := p2 }] u.username ∧
    getUserView { u with password := p1 } = getUserView { u with password := p2 } := by
  constructor
  · simp [getAccountH, List.find?, getUserView]
  · rfl

end ConcreteEvaluations

end CrashServer
